import Mathlib

/-!
Shallow embedding of drivers/auxdisplay/tm1628.c (TM1628 LED controller).

Machine integers are modelled as `Nat` with explicit `% 2 ^ w` where a store
into a narrower field truncates.  Bus activity is modelled as an explicit
event trace; the outcome of each SPI primitive is supplied as an oracle
argument (`Int`, 0 for success, negative errno for failure), mirroring the
return-value plumbing of the C code.
-/

namespace TM1628

/-- MAX_GRID_SIZE from tm1628.c -/
def MAX_GRID_SIZE : Nat := 7

/-- MAX_SEGMENT_NUM from tm1628.c -/
def MAX_SEGMENT_NUM : Nat := 16

/-- errno EINVAL -/
def EINVAL : Int := 22

/-- errno E2BIG -/
def E2BIG : Int := 7

/-- TM1628_CMD_SET_ADDRESS = 3 << 6 -/
def TM1628_CMD_SET_ADDRESS : Nat := 3 <<< 6

/-- Command byte built by tm1628_set_address: CMD_SET_ADDRESS | (offset * sizeof(__le16)). -/
def tm1628_set_address_cmd (offset : Nat) : Nat :=
  (TM1628_CMD_SET_ADDRESS ||| (offset * 2)) % 2 ^ 8

/-- One bus transfer, as observed on the SPI link.  `setAddress` is the
single command byte written by tm1628_set_address; `dataXfer` is the
two-part spi_sync_transfer of tm1628_write_data (command byte plus `len`
buffer words starting at `offset`). -/
inductive BusEvent where
  | setAddress (offset : Nat)
  | dataXfer (offset : Nat) (len : Nat)
deriving DecidableEq, Repr

/-- tm1628_write_data from tm1628.c: bounds check first, then
tm1628_set_address (whose result is not inspected), then the
spi_sync_transfer whose result becomes the return value.
offset and len are C unsigned ints, so the guard compares their sum
computed modulo 2^32 against MAX_GRID_SIZE — a sum that wraps is compared
after wrapping, exactly as in C.
`addrRes` / `dataRes` are the oracle outcomes of the two bus calls.
Returns (return value, bus events issued). -/
def tm1628_write_data (offset len : Nat) (addrRes dataRes : Int) :
    Int × List BusEvent :=
  if (offset + len) % 2 ^ 32 > MAX_GRID_SIZE then
    (-EINVAL, [])
  else
    (dataRes, [BusEvent.setAddress offset, BusEvent.dataXfer offset len])

/-- Helper: in-bounds behaviour of tm1628_write_data. -/
theorem write_data_in_bounds (offset len : Nat) (addrRes dataRes : Int)
    (h : offset + len ≤ MAX_GRID_SIZE) :
    tm1628_write_data offset len addrRes dataRes =
      (dataRes, [BusEvent.setAddress offset, BusEvent.dataXfer offset len]) := by
  unfold tm1628_write_data
  have h7 : offset + len ≤ 7 := by
    simp only [MAX_GRID_SIZE] at h
    exact h
  have hm : (offset + len) % 2 ^ 32 = offset + len := Nat.mod_eq_of_lt (by omega)
  rw [hm, if_neg (Nat.not_lt.mpr h)]

/-- Helper: out-of-bounds behaviour of tm1628_write_data on the
non-wrapping domain, where the 32-bit sum equals the mathematical one. -/
theorem write_data_out_of_bounds (offset len : Nat) (addrRes dataRes : Int)
    (hnw : offset + len < 2 ^ 32)
    (h : offset + len > MAX_GRID_SIZE) :
    tm1628_write_data offset len addrRes dataRes = (-EINVAL, []) := by
  unfold tm1628_write_data
  rw [Nat.mod_eq_of_lt hnw, if_pos h]

/-- The controller state `struct tm1628` (the fields the display logic reads:
the __le16 data words, the text C-string as the byte list before its NUL
terminator, the segment_mapping and grid tables, and grid_size). -/
structure Tm1628 where
  data : List Nat
  text : List Nat
  segment_mapping : List Nat
  grid : List Nat
  grid_size : Nat
deriving DecidableEq, Repr

/-- The shape the probe-time validation establishes: data sized to
MAX_GRID_SIZE, grid_size in [1, MAX_GRID_SIZE], grid of length grid_size with
entries in [1, grid_size], segment_mapping of length 7 with entries in
[1, MAX_SEGMENT_NUM]. -/
def Tm1628.Valid (s : Tm1628) : Prop :=
  s.data.length = MAX_GRID_SIZE ∧
  1 ≤ s.grid_size ∧ s.grid_size ≤ MAX_GRID_SIZE ∧
  s.grid.length = s.grid_size ∧
  (∀ g ∈ s.grid, 1 ≤ g ∧ g ≤ s.grid_size) ∧
  s.segment_mapping.length = 7 ∧
  (∀ m ∈ s.segment_mapping, 1 ≤ m ∧ m ≤ MAX_SEGMENT_NUM)

instance (s : Tm1628) : Decidable s.Valid := by
  unfold Tm1628.Valid
  infer_instance

/-- The inner remap loop of tm1628_show_text: for each logical segment bit j
set in the raw 7-bit pattern, set bit (segment_mapping[j] - 1) of the word. -/
def remap7 (segment_mapping : List Nat) (char7_raw : Nat) : Nat :=
  (List.range 7).foldl
    (fun char7 j =>
      if char7_raw.testBit j then char7 ||| 2 ^ (segment_mapping.getD j 0 - 1)
      else char7)
    0

/-- The word tm1628_show_text stores for logical index i: the remapped
pattern of text[i] truncated to a __le16 when i < strlen(text), else 0.
`encode` is the raw 7-segment lookup (map_to_seg7 with the driver's map). -/
def tm1628_render_word (s : Tm1628) (encode : Nat → Nat) (i : Nat) : Nat :=
  if i < s.text.length then
    remap7 s.segment_mapping (encode (s.text.getD i 0)) % 2 ^ 16
  else 0

/-- The sequence of buffer stores one tm1628_show_text pass performs, in loop
order: logical index i stores tm1628_render_word at offset grid[i] - 1. -/
def tm1628_render_stores (s : Tm1628) (encode : Nat → Nat) : List (Nat × Nat) :=
  (List.range s.grid_size).map
    (fun i => (s.grid.getD i 0 - 1, tm1628_render_word s encode i))

/-- Apply a list of (offset, value) stores to a buffer, in order. -/
def applyStores (data : List Nat) (stores : List (Nat × Nat)) : List Nat :=
  stores.foldl (fun d pv => d.set pv.1 pv.2) data

/-- tm1628_show_text from tm1628.c: for each logical index i below grid_size,
write at offset grid[i] - 1 the remapped segment pattern of text[i] (or 0 past
the end of the text), then issue tm1628_write_data(0, grid_size).  Returns
(new state, return value, bus events). -/
def tm1628_show_text (s : Tm1628) (encode : Nat → Nat) (addrRes dataRes : Int) :
    Tm1628 × Int × List BusEvent :=
  let msg_len := s.text.length
  let data :=
    (List.range s.grid_size).foldl
      (fun d i =>
        let pos := s.grid.getD i 0 - 1
        if i < msg_len then
          d.set pos (remap7 s.segment_mapping (encode (s.text.getD i 0)) % 2 ^ 16)
        else
          d.set pos 0)
      s.data
  let wd := tm1628_write_data 0 s.grid_size addrRes dataRes
  ({ s with data := data }, wd.1, wd.2)

/-- tm1628_led_set_brightness from tm1628.c: offset = grid - 1,
bit = cpu_to_le16(BIT(seg - 1)); OR the bit in (nonzero brightness) or
AND with its 16-bit complement (LED_OFF), then tm1628_write_data(offset, 1). -/
def tm1628_led_set_brightness (s : Tm1628) (grid seg : Nat) (brightness : Bool)
    (addrRes dataRes : Int) : Tm1628 × Int × List BusEvent :=
  let offset := grid - 1
  let bit := 2 ^ (seg - 1) % 2 ^ 16
  let w := s.data.getD offset 0
  let w2 := if brightness then w ||| bit else w &&& ((2 ^ 16 - 1) ^^^ bit)
  let wd := tm1628_write_data offset 1 addrRes dataRes
  ({ s with data := s.data.set offset w2 }, wd.1, wd.2)

/-- tm1628_led_get_brightness from tm1628.c: LED_ON iff the word at
offset grid - 1 has bit cpu_to_le16(BIT(seg - 1)) set. -/
def tm1628_led_get_brightness (s : Tm1628) (grid seg : Nat) : Bool :=
  decide (s.data.getD (grid - 1) 0 &&& (2 ^ (seg - 1) % 2 ^ 16) ≠ 0)

/-- Modelled from the spec: the "printable" byte classification used by the
text surface.  The C code's isprint comes from the kernel ctype table
(lib/ctype.c, outside src/); the spec speaks only of "printable characters",
modelled here as printable ASCII. -/
def asciiPrintable (b : Nat) : Bool :=
  decide (32 ≤ b ∧ b ≤ 126)

/-- display_text_store from tm1628.c at string level: reject with -E2BIG when
count > grid_size + 1; otherwise replace the stored text with the leading
isprint run of the first `count` bytes of buf (the copy loop followed by the
NUL store, read back as a C string) and run tm1628_show_text, returning its
error or else count.  `isp` is the printability predicate (kernel ctype is
external); a C-string reading of the text array needs isp 0 = false, which
holds for every ctype model.  Returns (return value, new state, bus events). -/
def display_text_store (s : Tm1628) (isp : Nat → Bool) (buf : List Nat)
    (count : Nat) (encode : Nat → Nat) (addrRes dataRes : Int) :
    Int × Tm1628 × List BusEvent :=
  if count > s.grid_size + 1 then
    (-E2BIG, s, [])
  else
    let s1 := { s with text := (buf.take count).takeWhile isp }
    let r := tm1628_show_text s1 encode addrRes dataRes
    (if r.2.1 < 0 then r.2.1 else (count : Int), r.1, r.2.2)

/-- display_text_store from tm1628.c at byte level: the list of
(index, byte) stores the function performs into the char text[MAX_GRID_SIZE+1]
array — the copied printable run at indices 0..i-1 followed by the NUL
terminator at index i — or none when the write is rejected with -E2BIG. -/
def display_text_store_writes (grid_size : Nat) (isp : Nat → Bool)
    (buf : List Nat) (count : Nat) : Option (List (Nat × Nat)) :=
  if count > grid_size + 1 then
    none
  else
    let copied := (buf.take count).takeWhile isp
    some (copied.enum ++ [(copied.length, 0)])

/-- Modelled from the spec: the fixed alphanumeric 7-segment font table (the
driver uses SEG7_CONVERSION_MAP(map_seg7, MAP_ASCII7SEG_ALPHANUM) from
include/uapi/linux/map_to_7segment.h, outside src/).  Keys are ASCII codes of
digits and letters; characters outside the table render as blank (0). -/
def seg7_alphanum_map : List (Nat × Nat) :=
  [(48, 0x3F), (49, 0x06), (50, 0x5B), (51, 0x4F), (52, 0x66),
   (53, 0x6D), (54, 0x7D), (55, 0x07), (56, 0x7F), (57, 0x6F),
   (65, 0x77), (66, 0x7C), (67, 0x39), (68, 0x5E), (69, 0x79),
   (70, 0x71), (71, 0x3D), (72, 0x76), (73, 0x06), (74, 0x1E),
   (75, 0x76), (76, 0x38), (77, 0x37), (78, 0x54), (79, 0x3F),
   (80, 0x73), (81, 0x67), (82, 0x50), (83, 0x6D), (84, 0x78),
   (85, 0x3E), (86, 0x3E), (87, 0x7E), (88, 0x76), (89, 0x6E), (90, 0x5B),
   (97, 0x5F), (98, 0x7C), (99, 0x58), (100, 0x5E), (101, 0x7B),
   (102, 0x71), (103, 0x6F), (104, 0x74), (105, 0x04), (106, 0x1E),
   (107, 0x76), (108, 0x30), (109, 0x37), (110, 0x54), (111, 0x5C),
   (112, 0x73), (113, 0x67), (114, 0x50), (115, 0x6D), (116, 0x78),
   (117, 0x1C), (118, 0x1C), (119, 0x7E), (120, 0x76), (121, 0x6E),
   (122, 0x5B)]

/-- Modelled from the spec: map_to_seg7 restricted to the driver's fixed
alphanumeric map — a pure, stateless lookup; bytes outside the table yield
the blank pattern 0. -/
def map_to_seg7 (c : Nat) : Nat :=
  (seg7_alphanum_map.lookup c).getD 0

/-- The probe-time configuration validation of tm1628_spi_probe (lines after
the no_leds label): grid property count must be in [1, MAX_GRID_SIZE], every
grid entry in [1, grid_size], every segment-mapping entry in
[1, MAX_SEGMENT_NUM]; the first violation returns -EINVAL.  On success
returns the accepted grid_size. -/
def tm1628_validate (grid segment_mapping : List Nat) : Except Int Nat :=
  if grid.length < 1 ∨ grid.length > MAX_GRID_SIZE then
    Except.error (-EINVAL)
  else if grid.any (fun g => decide (g < 1) || decide (g > grid.length)) then
    Except.error (-EINVAL)
  else if segment_mapping.any
      (fun m => decide (m < 1) || decide (m > MAX_SEGMENT_NUM)) then
    Except.error (-EINVAL)
  else
    Except.ok grid.length

/-- The externally visible phases of tm1628_spi_probe, in program order.
`registerLeds` carries the (grid, seg) pairs whose LED class devices get
registered (children whose coordinates pass the per-node range checks);
`configValidate` is the grid/segment-mapping validation; `registerTextFile`
is device_create_file of the display_text attribute. -/
inductive ProbeStep where
  | settleDelay
  | clearScreen
  | setDisplayMode
  | setDisplayCtrl
  | registerLeds (leds : List (Nat × Nat))
  | configValidate
  | registerTextFile
deriving DecidableEq, Repr

/-- tm1628_spi_probe from tm1628.c as a phase trace: msleep(200), the
clear-screen tm1628_write_data(0, MAX_GRID_SIZE) whose failure aborts (the
link check — later transfers are assumed ok if it was), display mode, display
control, LED registration for each child node with in-range coordinates,
configuration validation, and only then the display_text file.  `ledNodes`
are the (grid, seg) pairs read from child nodes; `clearRes` is the outcome of
the clear transfer.  Returns (return value, phases executed). -/
def tm1628_spi_probe (ledNodes : List (Nat × Nat)) (grid segment_mapping : List Nat)
    (clearRes : Int) : Int × List ProbeStep :=
  if clearRes ≠ 0 then
    (clearRes, [ProbeStep.settleDelay, ProbeStep.clearScreen])
  else
    let leds := ledNodes.filter
      (fun gs => decide (1 ≤ gs.1) && decide (gs.1 ≤ MAX_GRID_SIZE) &&
                 decide (1 ≤ gs.2) && decide (gs.2 ≤ MAX_SEGMENT_NUM))
    let steps := [ProbeStep.settleDelay, ProbeStep.clearScreen,
                  ProbeStep.setDisplayMode, ProbeStep.setDisplayCtrl,
                  ProbeStep.registerLeds leds, ProbeStep.configValidate]
    match tm1628_validate grid segment_mapping with
    | Except.error e => (e, steps)
    | Except.ok _ => (0, steps ++ [ProbeStep.registerTextFile])

/-! ## Claim theorems -/

/-- Counterexample to C1: at offset 2^32 - 1 and len 2 the mathematical sum
exceeds the buffer capacity, yet the unsigned 32-bit sum wraps to 1, the
guard passes, and tm1628_write_data issues both the address-set command and
the data transfer instead of failing with -EINVAL. -/
theorem write_data_bounds_wrap_cex :
    2 ^ 32 - 1 + 2 > MAX_GRID_SIZE ∧
    tm1628_write_data (2 ^ 32 - 1) 2 0 0 =
      (0, [BusEvent.setAddress (2 ^ 32 - 1), BusEvent.dataXfer (2 ^ 32 - 1) 2]) ∧
    tm1628_write_data (2 ^ 32 - 1) 2 0 0 ≠ (-EINVAL, []) := by
  refine ⟨by decide, ?_, ?_⟩
  · unfold tm1628_write_data
    rw [if_neg (by decide)]
  · unfold tm1628_write_data
    rw [if_neg (by decide)]
    decide

/-- C1 amended: for every offset and length whose sum does not wrap in the
32-bit unsigned addition (offset + len < 2^32), whenever offset + length
exceeds the buffer capacity MAX_GRID_SIZE, tm1628_write_data returns -EINVAL
and issues no bus transfer at all — neither the address-set command nor the
data transfer — whatever the bus outcomes would have been. -/
theorem write_data_bounds_no_bus (offset len : Nat) (addrRes dataRes : Int)
    (hnw : offset + len < 2 ^ 32)
    (h : offset + len > MAX_GRID_SIZE) :
    tm1628_write_data offset len addrRes dataRes = (-EINVAL, []) :=
  write_data_out_of_bounds offset len addrRes dataRes hnw h

/-- Witness for C1 amended at offset 5, len 3. -/
theorem write_data_bounds_no_bus_witness :
    5 + 3 < 2 ^ 32 ∧
    5 + 3 > MAX_GRID_SIZE ∧
    tm1628_write_data 5 3 0 0 = (-EINVAL, []) :=
  ⟨by decide, by decide, write_data_bounds_no_bus 5 3 0 0 (by decide) (by decide)⟩

/-- C10: when offset + len is within capacity, tm1628_write_data ignores the
outcome of the preceding address-set command: the data transfer is issued
unconditionally (the trace holds both transfers for every addrRes, failed
ones included) and the return value is exactly the data-transfer outcome. -/
theorem write_data_discards_addr_result (offset len : Nat) (addrRes dataRes : Int)
    (h : offset + len ≤ MAX_GRID_SIZE) :
    tm1628_write_data offset len addrRes dataRes =
      (dataRes, [BusEvent.setAddress offset, BusEvent.dataXfer offset len]) :=
  write_data_in_bounds offset len addrRes dataRes h

/-- Witness for C10 at offset 2, len 1, with a failed address-set (-5) and a
successful data transfer. -/
theorem write_data_discards_addr_result_witness :
    2 + 1 ≤ MAX_GRID_SIZE ∧
    tm1628_write_data 2 1 (-5) 0 =
      (0, [BusEvent.setAddress 2, BusEvent.dataXfer 2 1]) :=
  ⟨by decide, write_data_discards_addr_result 2 1 (-5) 0 (by decide)⟩

/-- Helper: foldl only depends on the fold function extensionally. -/
theorem foldl_ext {α β : Type} (f g : α → β → α) (init : α) (l : List β)
    (h : ∀ a b, f a b = g a b) : l.foldl f init = l.foldl g init := by
  have hfg : f = g := funext fun a => funext fun b => h a b
  rw [hfg]

/-- Helper: the buffer produced by tm1628_show_text is its store sequence
applied in order to the old buffer. -/
theorem show_text_data_eq_applyStores (s : Tm1628) (encode : Nat → Nat)
    (addrRes dataRes : Int) :
    (tm1628_show_text s encode addrRes dataRes).1.data =
      applyStores s.data (tm1628_render_stores s encode) := by
  simp only [tm1628_show_text, applyStores, tm1628_render_stores, List.foldl_map]
  apply foldl_ext
  intro d i
  by_cases h : i < s.text.length
  · simp [tm1628_render_word, h]
  · simp [tm1628_render_word, h]

/-- C2: one tm1628_show_text pass performs, for each logical index i below
grid_size, the store of the remapped segment pattern of text[i] (0 past the
text's end) at buffer offset grid[i] - 1 — the new buffer is exactly those
stores applied in order — and then issues exactly one
tm1628_write_data(0, grid_size) burst covering the whole buffer, whose
outcome it returns. -/
theorem show_text_renders (s : Tm1628) (encode : Nat → Nat)
    (addrRes dataRes : Int) (hv : s.Valid) :
    (tm1628_show_text s encode addrRes dataRes).1.data =
      applyStores s.data (tm1628_render_stores s encode) ∧
    (∀ i, i < s.grid_size →
      (tm1628_render_stores s encode)[i]? =
        some (s.grid.getD i 0 - 1,
          if i < s.text.length then
            remap7 s.segment_mapping (encode (s.text.getD i 0)) % 2 ^ 16
          else 0)) ∧
    (tm1628_show_text s encode addrRes dataRes).2.2 =
      [BusEvent.setAddress 0, BusEvent.dataXfer 0 s.grid_size] ∧
    (tm1628_show_text s encode addrRes dataRes).2.1 = dataRes := by
  obtain ⟨-, -, hgs, -, -, -, -⟩ := hv
  refine ⟨show_text_data_eq_applyStores s encode addrRes dataRes, ?_, ?_, ?_⟩
  · intro i hi
    simp [tm1628_render_stores, List.getElem?_range hi, tm1628_render_word]
  · simp only [tm1628_show_text,
      write_data_in_bounds 0 s.grid_size addrRes dataRes (by omega)]
  · simp only [tm1628_show_text,
      write_data_in_bounds 0 s.grid_size addrRes dataRes (by omega)]

/-- The worked example of the spec: grid_size 4, identity grid and segment
tables, text "12AB" (ASCII 49, 50, 65, 66), empty buffer. -/
def specExampleState : Tm1628 :=
  { data := [0, 0, 0, 0, 0, 0, 0]
    text := [49, 50, 65, 66]
    segment_mapping := [1, 2, 3, 4, 5, 6, 7]
    grid := [1, 2, 3, 4]
    grid_size := 4 }

/-- Witness for C2 on the spec's worked example. -/
theorem show_text_renders_witness :
    specExampleState.Valid ∧
    ((tm1628_show_text specExampleState map_to_seg7 0 0).1.data =
      applyStores specExampleState.data
        (tm1628_render_stores specExampleState map_to_seg7) ∧
    (∀ i, i < specExampleState.grid_size →
      (tm1628_render_stores specExampleState map_to_seg7)[i]? =
        some (specExampleState.grid.getD i 0 - 1,
          if i < specExampleState.text.length then
            remap7 specExampleState.segment_mapping
              (map_to_seg7 (specExampleState.text.getD i 0)) % 2 ^ 16
          else 0)) ∧
    (tm1628_show_text specExampleState map_to_seg7 0 0).2.2 =
      [BusEvent.setAddress 0, BusEvent.dataXfer 0 specExampleState.grid_size] ∧
    (tm1628_show_text specExampleState map_to_seg7 0 0).2.1 = 0) :=
  ⟨by decide, show_text_renders specExampleState map_to_seg7 0 0 (by decide)⟩

/-- C4: a byte outside the fixed alphanumeric 7-segment font table encodes to
the blank pattern 0 (no error is raised), and a logical position at or beyond
the current text length renders as the store of 0 at its grid offset. -/
theorem seg7_blank_outside_table (c : Nat) (s : Tm1628) (encode : Nat → Nat)
    (i : Nat) (hc : c ∉ seg7_alphanum_map.map Prod.fst)
    (hi : s.text.length ≤ i) (hig : i < s.grid_size) :
    map_to_seg7 c = 0 ∧
    (tm1628_render_stores s encode)[i]? = some (s.grid.getD i 0 - 1, 0) := by
  constructor
  · unfold map_to_seg7
    have hnone : seg7_alphanum_map.lookup c = none := by
      rw [List.lookup_eq_none_iff]
      intro p hp
      simp only [bne_iff_ne, ne_eq]
      intro hcp
      exact hc (hcp ▸ List.mem_map_of_mem Prod.fst hp)
    rw [hnone]
    rfl
  · simp [tm1628_render_stores, List.getElem?_range hig, tm1628_render_word,
      Nat.not_lt.mpr hi]

/-- A state with one stored character and two grid positions, for the
blank-rendering witness. -/
def blankExampleState : Tm1628 :=
  { data := [0, 0, 0, 0, 0, 0, 0]
    text := [49]
    segment_mapping := [1, 2, 3, 4, 5, 6, 7]
    grid := [1, 2]
    grid_size := 2 }

/-- Witness for C4 at byte 42 (an asterisk, outside the font table) and at
position 1, past the one-character text. -/
theorem seg7_blank_outside_table_witness :
    (42 ∉ seg7_alphanum_map.map Prod.fst) ∧
    blankExampleState.text.length ≤ 1 ∧
    1 < blankExampleState.grid_size ∧
    (map_to_seg7 42 = 0 ∧
      (tm1628_render_stores blankExampleState map_to_seg7)[1]? =
        some (blankExampleState.grid.getD 1 0 - 1, 0)) :=
  ⟨by decide, by decide, by decide,
   seg7_blank_outside_table 42 blankExampleState map_to_seg7 1
     (by decide) (by decide) (by decide)⟩

/-- Helper: every bit below 16 is set in the 16-bit all-ones mask. -/
theorem testBit_65535 (k : Nat) (h : k < 16) : Nat.testBit 65535 k = true := by
  have h16 : (65535 : Nat) = 2 ^ 16 - 1 := by norm_num
  rw [h16, Nat.testBit_two_pow_sub_one]
  simpa using h

/-- Helper: the LED read is the testBit of the addressed buffer word. -/
theorem decide_and_two_pow (x k : Nat) :
    decide (x &&& 2 ^ k ≠ 0) = x.testBit k := by
  cases h : x.testBit k
  · simp [Nat.and_two_pow, h]
  · simp [Nat.and_two_pow, h, (Nat.two_pow_pos k).ne']

/-- Helper: tm1628_led_get_brightness reads bit seg - 1 of the word at
offset grid - 1, once seg is small enough that the __le16 cast is lossless. -/
theorem led_get_eq_testBit (s : Tm1628) (grid seg : Nat)
    (hs : seg ≤ MAX_SEGMENT_NUM) :
    tm1628_led_get_brightness s grid seg =
      (s.data.getD (grid - 1) 0).testBit (seg - 1) := by
  unfold tm1628_led_get_brightness
  have hlt : 2 ^ (seg - 1) < 2 ^ 16 := by
    apply Nat.pow_lt_pow_right (by norm_num)
    unfold MAX_SEGMENT_NUM at hs
    omega
  rw [Nat.mod_eq_of_lt hlt, decide_and_two_pow]

/-- C5: setting a configured LED true then reading it back yields true,
setting it false then reading yields false, and setting one LED leaves the
derived state of every other LED that shares no buffer bit with it (different
word, or a different bit of the same word) unchanged. -/
theorem led_set_get_isolated (s : Tm1628) (g sg g2 sg2 : Nat)
    (addrRes dataRes : Int)
    (hlen : s.data.length = MAX_GRID_SIZE)
    (hg1 : 1 ≤ g) (hg7 : g ≤ MAX_GRID_SIZE)
    (hs1 : 1 ≤ sg) (hs16 : sg ≤ MAX_SEGMENT_NUM)
    (hg21 : 1 ≤ g2) (hg27 : g2 ≤ MAX_GRID_SIZE)
    (hs21 : 1 ≤ sg2) (hs216 : sg2 ≤ MAX_SEGMENT_NUM)
    (hdiff : ¬(g2 = g ∧ sg2 = sg)) :
    (∀ b : Bool,
      tm1628_led_get_brightness
        (tm1628_led_set_brightness s g sg b addrRes dataRes).1 g sg = b) ∧
    (∀ b : Bool,
      tm1628_led_get_brightness
        (tm1628_led_set_brightness s g sg b addrRes dataRes).1 g2 sg2 =
      tm1628_led_get_brightness s g2 sg2) := by
  simp only [MAX_GRID_SIZE, MAX_SEGMENT_NUM] at hg7 hs16 hg27 hs216 hlen
  have hbit : 2 ^ (sg - 1) % 2 ^ 16 = 2 ^ (sg - 1) :=
    Nat.mod_eq_of_lt (Nat.pow_lt_pow_right (by norm_num) (by omega))
  have hoff : g - 1 < s.data.length := by omega
  have hset : ∀ b : Bool,
      (tm1628_led_set_brightness s g sg b addrRes dataRes).1.data =
        s.data.set (g - 1)
          (if b then s.data.getD (g - 1) 0 ||| 2 ^ (sg - 1)
           else s.data.getD (g - 1) 0 &&& ((2 ^ 16 - 1) ^^^ 2 ^ (sg - 1))) := by
    intro b
    simp only [tm1628_led_set_brightness, hbit]
  have hgetset : ∀ v : Nat, (s.data.set (g - 1) v).getD (g - 1) 0 = v := by
    intro v
    rw [List.getD_eq_getElem?_getD, List.getElem?_set_self hoff]
    rfl
  have h15 : sg - 1 < 16 := by omega
  constructor
  · intro b
    rw [led_get_eq_testBit _ g sg (by unfold MAX_SEGMENT_NUM; omega)]
    rw [hset b]
    simp only [hgetset]
    cases b
    · simp [testBit_65535 (sg - 1) h15]
    · simp
  · intro b
    rw [led_get_eq_testBit _ g2 sg2 (by unfold MAX_SEGMENT_NUM; omega),
        led_get_eq_testBit s g2 sg2 (by unfold MAX_SEGMENT_NUM; omega)]
    rw [hset b]
    by_cases hoff2 : g2 - 1 = g - 1
    · have hgg : g2 = g := by omega
      have hss : sg2 ≠ sg := fun h => hdiff ⟨hgg, h⟩
      have hkk : sg - 1 ≠ sg2 - 1 := by omega
      rw [hoff2, hgetset]
      cases b
      · simp [testBit_65535 (sg2 - 1) (by omega), Nat.testBit_two_pow_of_ne hkk]
      · simp [Nat.testBit_two_pow_of_ne hkk]
    · rw [List.getD_eq_getElem?_getD, List.getElem?_set_ne (fun h => hoff2 h.symm),
        ← List.getD_eq_getElem?_getD]

/-- Witness for C5 with two LEDs on the same word (grid 2, segments 3
and 5) over a nonzero starting buffer. -/
theorem led_set_get_isolated_witness :
    ([1, 2, 41, 0, 0, 0, 9] : List Nat).length = MAX_GRID_SIZE ∧
    ((∀ b : Bool,
      tm1628_led_get_brightness
        (tm1628_led_set_brightness
          { data := [1, 2, 41, 0, 0, 0, 9], text := [], segment_mapping := [1, 2, 3, 4, 5, 6, 7],
            grid := [1, 2], grid_size := 2 } 2 3 b 0 0).1 2 3 = b) ∧
    (∀ b : Bool,
      tm1628_led_get_brightness
        (tm1628_led_set_brightness
          { data := [1, 2, 41, 0, 0, 0, 9], text := [], segment_mapping := [1, 2, 3, 4, 5, 6, 7],
            grid := [1, 2], grid_size := 2 } 2 3 b 0 0).1 2 5 =
      tm1628_led_get_brightness
        { data := [1, 2, 41, 0, 0, 0, 9], text := [], segment_mapping := [1, 2, 3, 4, 5, 6, 7],
          grid := [1, 2], grid_size := 2 } 2 5)) :=
  ⟨by decide,
   led_set_get_isolated
     { data := [1, 2, 41, 0, 0, 0, 9], text := [], segment_mapping := [1, 2, 3, 4, 5, 6, 7],
       grid := [1, 2], grid_size := 2 } 2 3 2 5 0 0
     (by decide) (by decide) (by decide) (by decide) (by decide)
     (by decide) (by decide) (by decide) (by decide) (by decide)⟩

/-- The state after a subsequent write of the empty string: same controller,
text replaced by the empty C string. -/
def withTextCleared (s : Tm1628) : Tm1628 :=
  { s with text := [] }

/-- A valid state whose in-range grid table aliases: both logical digits map
to physical word 0, so physical word 1 backs no logical digit. -/
def aliasGridState : Tm1628 :=
  { data := [0, 9, 0, 0, 0, 0, 0]
    text := [49, 50]
    segment_mapping := [1, 2, 3, 4, 5, 6, 7]
    grid := [1, 1]
    grid_size := 2 }

/-- Counterexample to C6: with the valid but non-surjective grid table
[1, 1] at grid_size 2, rendering the length-2 text "12" and then the empty
string never writes physical word 1 at all — no store of 0 reaches it, so the
double render is not a full clear. -/
theorem clear_misses_word_cex :
    aliasGridState.Valid ∧
    aliasGridState.text.length = aliasGridState.grid_size ∧
    ¬ (∀ p, p < aliasGridState.grid_size →
        (p, 0) ∈
          tm1628_render_stores aliasGridState map_to_seg7 ++
          tm1628_render_stores
            (withTextCleared (tm1628_show_text aliasGridState map_to_seg7 0 0).1)
            map_to_seg7) := by
  decide

/-- C6 amended: for every grid size and in-range grid table that is moreover
surjective onto [1, grid_size] (every physical word backs some logical
digit — any permutation qualifies), rendering a length-g string and then the
empty string writes 0 at least once to every physical word in [0, g): the
empty-string pass alone stores 0 at grid[i] - 1 for every i. -/
theorem clear_full_when_surjective (s : Tm1628) (encode : Nat → Nat)
    (addrRes dataRes : Int)
    (hlen : s.grid.length = s.grid_size)
    (hsurj : ∀ p, p < s.grid_size → p + 1 ∈ s.grid) :
    ∀ p, p < s.grid_size →
      (p, 0) ∈
        tm1628_render_stores s encode ++
        tm1628_render_stores
          (withTextCleared (tm1628_show_text s encode addrRes dataRes).1)
          encode := by
  intro p hp
  obtain ⟨i, hig, hgi⟩ := List.mem_iff_getElem.mp (hsurj p hp)
  apply List.mem_append.mpr
  right
  have hgrid : (withTextCleared (tm1628_show_text s encode addrRes dataRes).1).grid
      = s.grid := rfl
  have hgsize : (withTextCleared (tm1628_show_text s encode addrRes dataRes).1).grid_size
      = s.grid_size := rfl
  have htext : (withTextCleared (tm1628_show_text s encode addrRes dataRes).1).text
      = [] := rfl
  apply List.mem_map.mpr
  refine ⟨i, List.mem_range.mpr (by rw [hgsize]; omega), ?_⟩
  have hgetD : s.grid.getD i 0 = p + 1 := by
    simp [List.getD_eq_getElem?_getD, List.getElem?_eq_getElem hig, hgi]
  have hw : tm1628_render_word
      (withTextCleared (tm1628_show_text s encode addrRes dataRes).1) encode i = 0 := by
    simp [tm1628_render_word, htext]
  simp only [hgrid, hw, hgetD]
  simp

/-- Witness for C6 amended on a permutation grid table [2, 1] at
grid_size 2. -/
theorem clear_full_when_surjective_witness :
    (([2, 1] : List Nat).length = 2) ∧
    (∀ p, p < 2 → p + 1 ∈ ([2, 1] : List Nat)) ∧
    (∀ p, p <
      ({ data := [3, 4, 0, 0, 0, 0, 0], text := [49, 50],
         segment_mapping := [1, 2, 3, 4, 5, 6, 7], grid := [2, 1],
         grid_size := 2 } : Tm1628).grid_size →
      (p, 0) ∈
        tm1628_render_stores
          { data := [3, 4, 0, 0, 0, 0, 0], text := [49, 50],
            segment_mapping := [1, 2, 3, 4, 5, 6, 7], grid := [2, 1],
            grid_size := 2 } map_to_seg7 ++
        tm1628_render_stores
          (withTextCleared
            (tm1628_show_text
              { data := [3, 4, 0, 0, 0, 0, 0], text := [49, 50],
                segment_mapping := [1, 2, 3, 4, 5, 6, 7], grid := [2, 1],
                grid_size := 2 } map_to_seg7 0 0).1) map_to_seg7) :=
  ⟨by decide, by decide,
   clear_full_when_surjective
     { data := [3, 4, 0, 0, 0, 0, 0], text := [49, 50],
       segment_mapping := [1, 2, 3, 4, 5, 6, 7], grid := [2, 1],
       grid_size := 2 } map_to_seg7 0 0 (by decide) (by decide)⟩

/-- A valid 4-digit state with identity tables and empty text, for the
text-store evaluations. -/
def fourDigitState : Tm1628 :=
  { data := [0, 0, 0, 0, 0, 0, 0]
    text := []
    segment_mapping := [1, 2, 3, 4, 5, 6, 7]
    grid := [1, 2, 3, 4]
    grid_size := 4 }

/-- C3: at grid_size 4, the 5-byte all-printable write "12345" passes the
count check (count = grid_size + 1 is accepted, the slack meant for a
trailing newline), returns count = 5, and leaves a stored text of length
5 > grid_size: the claimed invariant length ≤ grid_size fails on an accepted
write with no newline. -/
theorem text_store_exceeds_grid_size :
    fourDigitState.Valid ∧
    (display_text_store fourDigitState asciiPrintable [49, 50, 51, 52, 53] 5
        map_to_seg7 0 0).1 = 5 ∧
    (display_text_store fourDigitState asciiPrintable [49, 50, 51, 52, 53] 5
        map_to_seg7 0 0).2.1.text.length = 5 ∧
    fourDigitState.grid_size = 4 := by
  decide

/-- C9: at grid_size 7 = MAX_GRID_SIZE, the 8-byte all-printable write
"12345678" is accepted by the count check, and the byte stores it performs
into char text[MAX_GRID_SIZE + 1] include the NUL terminator at index 8,
which is not strictly below the array capacity MAX_GRID_SIZE + 1 = 8: an
out-of-bounds store. -/
theorem text_store_oob_terminator :
    (display_text_store_writes 7 asciiPrintable
        [49, 50, 51, 52, 53, 54, 55, 56] 8).isSome = true ∧
    ((8 : Nat), (0 : Nat)) ∈
      (display_text_store_writes 7 asciiPrintable
        [49, 50, 51, 52, 53, 54, 55, 56] 8).getD [] ∧
    ¬ (8 < MAX_GRID_SIZE + 1) := by
  decide

/-- Helper: the probe validation either rejects with -EINVAL or accepts with
the grid property count. -/
theorem validate_cases (grid segmap : List Nat) :
    tm1628_validate grid segmap = Except.error (-EINVAL) ∨
    tm1628_validate grid segmap = Except.ok grid.length := by
  unfold tm1628_validate
  split_ifs <;> simp

/-- Helper: the probe validation accepts exactly the in-range
configurations. -/
theorem validate_ok_iff (grid segmap : List Nat) :
    tm1628_validate grid segmap = Except.ok grid.length ↔
      (1 ≤ grid.length ∧ grid.length ≤ MAX_GRID_SIZE ∧
       (∀ g ∈ grid, 1 ≤ g ∧ g ≤ grid.length) ∧
       (∀ m ∈ segmap, 1 ≤ m ∧ m ≤ MAX_SEGMENT_NUM)) := by
  unfold tm1628_validate
  split_ifs with h1 h2 h3
  · constructor
    · intro h
      simp at h
    · intro hR
      exfalso
      simp only [MAX_GRID_SIZE] at h1 hR
      omega
  · constructor
    · intro h
      simp at h
    · intro hR
      exfalso
      rw [List.any_eq_true] at h2
      obtain ⟨g, hg, hbad⟩ := h2
      simp only [Bool.or_eq_true, decide_eq_true_eq] at hbad
      have := hR.2.2.1 g hg
      omega
  · constructor
    · intro h
      simp at h
    · intro hR
      exfalso
      rw [List.any_eq_true] at h3
      obtain ⟨m, hm, hbad⟩ := h3
      simp only [Bool.or_eq_true, decide_eq_true_eq, MAX_SEGMENT_NUM] at hbad
      have := hR.2.2.2 m hm
      simp only [MAX_SEGMENT_NUM] at this
      omega
  · constructor
    · intro _
      simp only [List.any_eq_true, Bool.or_eq_true, decide_eq_true_eq] at h2 h3
      push_neg at h1 h2 h3
      simp only [MAX_GRID_SIZE] at h1
      simp only [MAX_SEGMENT_NUM] at h3
      simp only [MAX_GRID_SIZE, MAX_SEGMENT_NUM]
      refine ⟨by omega, by omega, ?_, ?_⟩
      · intro g hg
        have := h2 g hg
        omega
      · intro m hm
        have := h3 m hm
        omega
    · intro _
      rfl

/-- C7: probe configuration validation fails with -EINVAL exactly when the
grid property count is outside [1, MAX_GRID_SIZE], some grid entry is outside
[1, grid_size], or some segment-mapping entry is outside
[1, MAX_SEGMENT_NUM]; with every value in range it accepts, returning the
grid size; and on a validation error the probe trace never registers the
display_text surface. -/
theorem validate_in_range_claim (grid segmap : List Nat) :
    (tm1628_validate grid segmap = Except.error (-EINVAL) ↔
      (grid.length < 1 ∨ grid.length > MAX_GRID_SIZE ∨
       (∃ g ∈ grid, g < 1 ∨ g > grid.length) ∨
       (∃ m ∈ segmap, m < 1 ∨ m > MAX_SEGMENT_NUM))) ∧
    ((1 ≤ grid.length ∧ grid.length ≤ MAX_GRID_SIZE ∧
      (∀ g ∈ grid, 1 ≤ g ∧ g ≤ grid.length) ∧
      (∀ m ∈ segmap, 1 ≤ m ∧ m ≤ MAX_SEGMENT_NUM)) →
      tm1628_validate grid segmap = Except.ok grid.length) ∧
    (∀ (ledNodes : List (Nat × Nat)) (e : Int),
      tm1628_validate grid segmap = Except.error e →
      ProbeStep.registerTextFile ∉ (tm1628_spi_probe ledNodes grid segmap 0).2) := by
  have hcond : (grid.length < 1 ∨ grid.length > MAX_GRID_SIZE ∨
      (∃ g ∈ grid, g < 1 ∨ g > grid.length) ∨
      (∃ m ∈ segmap, m < 1 ∨ m > MAX_SEGMENT_NUM)) ↔
      ¬ (1 ≤ grid.length ∧ grid.length ≤ MAX_GRID_SIZE ∧
         (∀ g ∈ grid, 1 ≤ g ∧ g ≤ grid.length) ∧
         (∀ m ∈ segmap, 1 ≤ m ∧ m ≤ MAX_SEGMENT_NUM)) := by
    simp only [MAX_GRID_SIZE, MAX_SEGMENT_NUM]
    constructor
    · rintro (h | h | ⟨g, hg, h⟩ | ⟨m, hm, h⟩) ⟨ha, hb, hc, hd⟩
      · omega
      · omega
      · have := hc g hg
        omega
      · have := hd m hm
        omega
    · intro hn
      by_contra hno
      push_neg at hno
      obtain ⟨ha, hb, hc, hd⟩ := hno
      exact hn ⟨by omega, by omega,
        fun g hg => by have := hc g hg; omega,
        fun m hm => by have := hd m hm; omega⟩
  refine ⟨?_, fun hR => (validate_ok_iff grid segmap).mpr hR, ?_⟩
  · rw [hcond]
    constructor
    · intro herr hR
      have := (validate_ok_iff grid segmap).mpr hR
      rw [herr] at this
      simp at this
    · intro hn
      rcases validate_cases grid segmap with h | h
      · exact h
      · exact absurd ((validate_ok_iff grid segmap).mp h) hn
  · intro ledNodes e herr
    simp [tm1628_spi_probe, herr]

/-- Counterexample to C8: with one valid LED child node and a passing
configuration, the probe trace registers the LED output surface at phase
index 4, strictly before the configuration validation at phase index 5 — an
output surface registration does occur before configuration validation
completes (and the settle delay precedes the first bus activity, which
doubles as the link validation, rather than following a prior one). -/
theorem probe_order_cex :
    (tm1628_spi_probe [(1, 1)] [1] [1, 1, 1, 1, 1, 1, 1] 0).2 =
      [ProbeStep.settleDelay, ProbeStep.clearScreen, ProbeStep.setDisplayMode,
       ProbeStep.setDisplayCtrl, ProbeStep.registerLeds [(1, 1)],
       ProbeStep.configValidate, ProbeStep.registerTextFile] ∧
    (tm1628_spi_probe [(1, 1)] [1] [1, 1, 1, 1, 1, 1, 1] 0).2.indexOf
        (ProbeStep.registerLeds [(1, 1)]) <
      (tm1628_spi_probe [(1, 1)] [1] [1, 1, 1, 1, 1, 1, 1] 0).2.indexOf
        ProbeStep.configValidate := by
  decide

/-- C8 amended: the probe phases run in the order settle delay, full-buffer
clear (the first bus transfer, doubling as the link validation and aborting
the probe with its error on failure), display mode selection, display enable,
LED output-surface registration, configuration validation, and only then text
surface registration; a validation error aborts with that error before the
text surface exists. -/
theorem probe_phase_order (ledNodes : List (Nat × Nat)) (grid segmap : List Nat)
    (clearRes : Int) :
    (tm1628_spi_probe ledNodes grid segmap clearRes).2[0]? =
      some ProbeStep.settleDelay ∧
    (tm1628_spi_probe ledNodes grid segmap clearRes).2[1]? =
      some ProbeStep.clearScreen ∧
    (clearRes ≠ 0 →
      (tm1628_spi_probe ledNodes grid segmap clearRes).1 = clearRes ∧
      (tm1628_spi_probe ledNodes grid segmap clearRes).2.length = 2) ∧
    (clearRes = 0 →
      (tm1628_spi_probe ledNodes grid segmap clearRes).2[2]? =
        some ProbeStep.setDisplayMode ∧
      (tm1628_spi_probe ledNodes grid segmap clearRes).2[3]? =
        some ProbeStep.setDisplayCtrl ∧
      (∃ leds, (tm1628_spi_probe ledNodes grid segmap clearRes).2[4]? =
        some (ProbeStep.registerLeds leds)) ∧
      (tm1628_spi_probe ledNodes grid segmap clearRes).2[5]? =
        some ProbeStep.configValidate ∧
      (∀ n, tm1628_validate grid segmap = Except.ok n →
        (tm1628_spi_probe ledNodes grid segmap clearRes).1 = 0 ∧
        (tm1628_spi_probe ledNodes grid segmap clearRes).2[6]? =
          some ProbeStep.registerTextFile) ∧
      (∀ e, tm1628_validate grid segmap = Except.error e →
        (tm1628_spi_probe ledNodes grid segmap clearRes).1 = e ∧
        (tm1628_spi_probe ledNodes grid segmap clearRes).2.length = 6)) := by
  by_cases hc : clearRes = 0
  · subst hc
    cases hval : tm1628_validate grid segmap with
    | error e => simp [tm1628_spi_probe, hval]
    | ok n => simp [tm1628_spi_probe, hval]
  · simp [tm1628_spi_probe, hc]

end TM1628
